import Mathlib

/-!
Verification development for the clari_gen query-resolution pipeline.

Shallow embedding of:
- src/clari_gen/models/query.py (QueryStatus, Query, to_dict, get_final_output)
- src/clari_gen/models/ambiguity_types.py (AmbiguityType)
- src/clari_gen/prompts/ambiguity_classification.py (parse_response type whitelist)
- src/clari_gen/orchestrator/ambiguity_pipeline.py (AmbiguityPipeline.process_query)
- the confirmation / deserialization steps that exist in the repository only as
  callers and test doubles, modelled from the specification where noted.

Python idioms are modelled explicitly: Optional[T] as Option T, truthiness of
optional values (None and the empty string are falsy), and the two model
clients as environments of call results where an exception raised by a call is
an `Except.error` carrying the exception message (`str(e)`).
-/

/-- QueryStatus enum from src/clari_gen/models/query.py. -/
inductive QueryStatus where
  | INITIAL
  | CHECKING_AMBIGUITY
  | NOT_AMBIGUOUS
  | AMBIGUOUS
  | AWAITING_CLARIFICATION
  | CLARIFICATION_RECEIVED
  | VALIDATING_CLARIFICATION
  | CLARIFICATION_INVALID
  | REFORMULATING
  | COMPLETED
  | ERROR
  deriving DecidableEq, Repr

/-- The string tag of each status (`.value` of the Python str-Enum). -/
def QueryStatus.value : QueryStatus → String
  | .INITIAL => "INITIAL"
  | .CHECKING_AMBIGUITY => "CHECKING_AMBIGUITY"
  | .NOT_AMBIGUOUS => "NOT_AMBIGUOUS"
  | .AMBIGUOUS => "AMBIGUOUS"
  | .AWAITING_CLARIFICATION => "AWAITING_CLARIFICATION"
  | .CLARIFICATION_RECEIVED => "CLARIFICATION_RECEIVED"
  | .VALIDATING_CLARIFICATION => "VALIDATING_CLARIFICATION"
  | .CLARIFICATION_INVALID => "CLARIFICATION_INVALID"
  | .REFORMULATING => "REFORMULATING"
  | .COMPLETED => "COMPLETED"
  | .ERROR => "ERROR"

/-- Inverse of `QueryStatus.value`: the status whose tag is the given string. -/
def QueryStatus.ofValue : String → Option QueryStatus
  | "INITIAL" => some .INITIAL
  | "CHECKING_AMBIGUITY" => some .CHECKING_AMBIGUITY
  | "NOT_AMBIGUOUS" => some .NOT_AMBIGUOUS
  | "AMBIGUOUS" => some .AMBIGUOUS
  | "AWAITING_CLARIFICATION" => some .AWAITING_CLARIFICATION
  | "CLARIFICATION_RECEIVED" => some .CLARIFICATION_RECEIVED
  | "VALIDATING_CLARIFICATION" => some .VALIDATING_CLARIFICATION
  | "CLARIFICATION_INVALID" => some .CLARIFICATION_INVALID
  | "REFORMULATING" => some .REFORMULATING
  | "COMPLETED" => some .COMPLETED
  | "ERROR" => some .ERROR
  | _ => none

/-- AmbiguityType enum from src/clari_gen/models/ambiguity_types.py.
Note: the enum has WHO, WHEN, WHERE, WHAT and no REFERENCE member. -/
inductive AmbiguityType where
  | UNFAMILIAR
  | CONTRADICTION
  | LEXICAL
  | SEMANTIC
  | WHO
  | WHEN
  | WHERE
  | WHAT
  | NONE
  deriving DecidableEq, Repr

/-- Member lookup `AmbiguityType[t]` (Python raises KeyError on a missing
name, modelled as `none`). For this str-Enum every member name equals its
value. -/
def AmbiguityType.ofName : String → Option AmbiguityType
  | "UNFAMILIAR" => some .UNFAMILIAR
  | "CONTRADICTION" => some .CONTRADICTION
  | "LEXICAL" => some .LEXICAL
  | "SEMANTIC" => some .SEMANTIC
  | "WHO" => some .WHO
  | "WHEN" => some .WHEN
  | "WHERE" => some .WHERE
  | "WHAT" => some .WHAT
  | "NONE" => some .NONE
  | _ => none

/-- The member names of the AmbiguityType enum, in declaration order. -/
def ambiguityTypeNames : List String :=
  ["UNFAMILIAR", "CONTRADICTION", "LEXICAL", "SEMANTIC",
   "WHO", "WHEN", "WHERE", "WHAT", "NONE"]

/-- Python truthiness of an Optional[bool]: None is falsy. -/
def pyTruthy : Option Bool → Bool
  | none => false
  | some b => b

/-- Python `a or b` for an Optional[str] `a`: None and the empty string are
falsy and fall through to `b`. -/
def pyOrStr (a : Option String) (b : String) : String :=
  match a with
  | none => b
  | some s => if s = "" then b else s

/-- Python f-string rendering of an Optional[str]: None prints as "None". -/
def pyFormatOpt : Option String → String
  | none => "None"
  | some s => s

/-- Query dataclass from src/clari_gen/models/query.py. The datetime field
`created_at` is modelled by its ISO-8601 rendering, so `isoformat()` is the
identity on it. -/
structure Query where
  original_query : String
  status : QueryStatus := .INITIAL
  is_ambiguous : Option Bool := none
  ambiguity_types : List String := []
  ambiguity_reasoning : Option String := none
  clarifying_question : Option String := none
  user_clarification : Option String := none
  clarification_is_valid : Option Bool := none
  clarification_validation_feedback : Option String := none
  reformulated_query : Option String := none
  created_at : String
  error_message : Option String := none
  deriving DecidableEq, Repr

/-- Query.get_final_output from src/clari_gen/models/query.py:
`if not self.is_ambiguous: return self.original_query` then
`return self.reformulated_query or self.original_query`. -/
def Query.get_final_output (q : Query) : String :=
  if !(pyTruthy q.is_ambiguous) then q.original_query
  else pyOrStr q.reformulated_query q.original_query

/-- The flat serialized mapping produced by Query.to_dict: every dataclass
field, with the status rendered as its string tag and the timestamp as an
ISO-8601 string. -/
structure QueryDict where
  original_query : String
  status : String
  is_ambiguous : Option Bool
  ambiguity_types : List String
  ambiguity_reasoning : Option String
  clarifying_question : Option String
  user_clarification : Option String
  clarification_is_valid : Option Bool
  clarification_validation_feedback : Option String
  reformulated_query : Option String
  created_at : String
  error_message : Option String
  deriving DecidableEq, Repr

/-- Query.to_dict from src/clari_gen/models/query.py. -/
def Query.to_dict (q : Query) : QueryDict :=
  { original_query := q.original_query
    status := q.status.value
    is_ambiguous := q.is_ambiguous
    ambiguity_types := q.ambiguity_types
    ambiguity_reasoning := q.ambiguity_reasoning
    clarifying_question := q.clarifying_question
    user_clarification := q.user_clarification
    clarification_is_valid := q.clarification_is_valid
    clarification_validation_feedback := q.clarification_validation_feedback
    reformulated_query := q.reformulated_query
    created_at := q.created_at
    error_message := q.error_message }

/-- Modelled from the spec: reconstruction of a Query record from the
serialized blob. The repository contains no real deserializer — the stateless
resume methods are invoked by src/clari_gen/api/main.py and mocked as
`Query(**query_dict)` in src/tests/test_api_mock.py, but no implementation
exists under the package. Spec section 6 requires the machine to
"reconstruct an equivalent record from this blob with no information loss",
with enums read back from their string tag and the timestamp from its
ISO-8601 string; an unknown status tag cannot be reconstructed (`none`). -/
def Query.from_dict (d : QueryDict) : Option Query :=
  match QueryStatus.ofValue d.status with
  | none => none
  | some s =>
    some
      { original_query := d.original_query
        status := s
        is_ambiguous := d.is_ambiguous
        ambiguity_types := d.ambiguity_types
        ambiguity_reasoning := d.ambiguity_reasoning
        clarifying_question := d.clarifying_question
        user_clarification := d.user_clarification
        clarification_is_valid := d.clarification_is_valid
        clarification_validation_feedback := d.clarification_validation_feedback
        reformulated_query := d.reformulated_query
        created_at := d.created_at
        error_message := d.error_message }

/-- The hard-coded whitelist inside AmbiguityClassificationPrompt.parse_response
(src/clari_gen/prompts/ambiguity_classification.py, `valid_types`). Note that
it contains REFERENCE, which is not an AmbiguityType member, and omits the
enum members WHO, WHEN, WHERE and WHAT. -/
def valid_types : List String :=
  ["UNFAMILIAR", "CONTRADICTION", "LEXICAL", "SEMANTIC", "REFERENCE", "NONE"]

/-- AmbiguityClassificationPrompt.parse_response, applied to an already
schema-decoded response `(ambiguity_types, reasoning)` (the
`model_validate_json` step is folded into the classification call result in
`Env.classifyRaw`; a JSON-level failure is an exception there). The method
walks the list and raises `ValueError("Invalid ambiguity type: t")` at the
first element outside `valid_types`; the surrounding handler rewraps it as
`ValueError("Could not parse structured response: ...")`. -/
def parse_response (ts : List String) (reasoning : String) :
    Except String (List String × String) :=
  match ts.find? (fun t => !valid_types.contains t) with
  | some t => .error ("Could not parse structured response: Invalid ambiguity type: " ++ t)
  | none => .ok (ts, reasoning)

/-- The comprehension `[AmbiguityType[t] for t in ambiguity_types_strs]` in
AmbiguityPipeline._classify_ambiguity: left to right, raising KeyError at the
first name that is not an enum member. (Python renders the KeyError message
with quotes around the name; the quoting is elided here and no theorem
depends on this message text.) -/
def lookupAmbiguityTypes : List String → Except String (List AmbiguityType)
  | [] => .ok []
  | t :: rest =>
    match AmbiguityType.ofName t with
    | none => .error ("KeyError: " ++ t)
    | some a =>
      match lookupAmbiguityTypes rest with
      | .error m => .error m
      | .ok more => .ok (a :: more)

/-- True when every kind in the list passes both the parse_response whitelist
and the AmbiguityType member lookup, i.e. classification accepts the list. -/
def classifyAccepts (ts : List String) : Bool :=
  ts.all (fun t => valid_types.contains t && (AmbiguityType.ofName t).isSome)

/-- One run environment for AmbiguityPipeline.process_query: the results of
the model-client calls it can make, in the order the pipeline makes them.
`Except.error m` models the call raising an exception whose `str` is `m`
(transport failure or a response-parse failure inside the step, except for
the classification whitelist and enum lookup, which are modelled explicitly).
The validation results are indexed by the attempt number because the
pipeline performs one validation call per submitted answer. -/
structure Env where
  detect : Except String Bool
  classifyRaw : Except String (List String × String)
  generate : Except String String
  validate : Nat → Except String (Bool × String)
  reformulate : Except String String

/-- Observable call trace of a process_query run. `callbackEvents` records,
for each invocation of the clarification callback in order, the
clarifying_question passed to it and the record status at the moment of the
call. A Python callback is stateful, so the model callback additionally
receives the attempt index. -/
structure Trace where
  smallModelCalls : Nat := 0
  largeModelCalls : Nat := 0
  validateCalls : Nat := 0
  callbackEvents : List (Option String × QueryStatus) := []
  deriving DecidableEq, Repr

/-- A paused or finished computation of the try-block in process_query:
`.error (m, q)` is an exception with message `m` raised while the local
record had value `q`. -/
abbrev StepResult := Except (String × Query) Query

/-- AmbiguityPipeline._detect_ambiguity: set CHECKING_AMBIGUITY, call the
small model (the Detector), set is_ambiguous, and move to AMBIGUOUS or
NOT_AMBIGUOUS. -/
def detectStep (env : Env) (q : Query) (tr : Trace) : StepResult × Trace :=
  let q := { q with status := .CHECKING_AMBIGUITY }
  let tr := { tr with smallModelCalls := tr.smallModelCalls + 1 }
  match env.detect with
  | .error m => (.error (m, q), tr)
  | .ok b =>
    (.ok { q with is_ambiguous := some b,
                  status := if b then .AMBIGUOUS else .NOT_AMBIGUOUS }, tr)

/-- AmbiguityPipeline._classify_ambiguity: call the large model (the
Resolver), parse the response, and convert each kind with `AmbiguityType[t]`.
The record stores the accepted kind strings (the Python code stores the
str-enum members, whose string values are these names). -/
def classifyStep (env : Env) (q : Query) (tr : Trace) : StepResult × Trace :=
  let tr := { tr with largeModelCalls := tr.largeModelCalls + 1 }
  match env.classifyRaw with
  | .error m => (.error (m, q), tr)
  | .ok (ts, reasoning) =>
    match parse_response ts reasoning with
    | .error m => (.error (m, q), tr)
    | .ok (ts, reasoning) =>
      match lookupAmbiguityTypes ts with
      | .error m => (.error (m, q), tr)
      | .ok _ =>
        (.ok { q with ambiguity_types := ts, ambiguity_reasoning := some reasoning }, tr)

/-- AmbiguityPipeline._generate_clarifying_question: call the Resolver and
store the generated question (response parsing folded into `Env.generate`). -/
def generateStep (env : Env) (q : Query) (tr : Trace) : StepResult × Trace :=
  let tr := { tr with largeModelCalls := tr.largeModelCalls + 1 }
  match env.generate with
  | .error m => (.error (m, q), tr)
  | .ok question => (.ok { q with clarifying_question := some question }, tr)

/-- AmbiguityPipeline._validate_clarification at attempt index `i`: set
VALIDATING_CLARIFICATION, call the Resolver, store validity and feedback,
and set CLARIFICATION_INVALID when invalid. -/
def validateStep (env : Env) (i : Nat) (q : Query) (tr : Trace) : StepResult × Trace :=
  let q := { q with status := .VALIDATING_CLARIFICATION }
  let tr := { tr with largeModelCalls := tr.largeModelCalls + 1,
                      validateCalls := tr.validateCalls + 1 }
  match env.validate i with
  | .error m => (.error (m, q), tr)
  | .ok (is_valid, explanation) =>
    let q := { q with clarification_is_valid := some is_valid,
                      clarification_validation_feedback := some explanation }
    (.ok (if is_valid then q else { q with status := .CLARIFICATION_INVALID }), tr)

/-- AmbiguityPipeline._reformulate_query: set REFORMULATING, call the
Resolver, store the reformulated query. -/
def reformulateStep (env : Env) (q : Query) (tr : Trace) : StepResult × Trace :=
  let q := { q with status := .REFORMULATING }
  let tr := { tr with largeModelCalls := tr.largeModelCalls + 1 }
  match env.reformulate with
  | .error m => (.error (m, q), tr)
  | .ok s => (.ok { q with reformulated_query := some s }, tr)

/-- The error message assigned when the clarification loop exhausts its
attempts (ambiguity_pipeline.py lines 123-126). -/
def maxAttemptsMessage : String :=
  "Maximum clarification attempts reached with invalid responses"

/-- The rewritten clarifying question after an invalid answer when attempts
remain (ambiguity_pipeline.py lines 115-119; f-string rendering of the two
Optional[str] fields). -/
def rewriteQuestion (question feedback : Option String) : String :=
  pyFormatOpt question ++ "\n\n(Your previous answer was unclear: " ++
    pyFormatOpt feedback ++ ". Please try again.)"

/-- The `while attempts < self.max_clarification_attempts` loop of
process_query. `i` is the number of answers submitted so far and `fuel` the
number of loop iterations still allowed (`max_clarification_attempts - i`);
inside an iteration `attempts = i + 1`, so the rewrite guard
`attempts < max_clarification_attempts` is `fuel - 1 > 0`. After the loop the
record moves to ERROR with `maxAttemptsMessage`. -/
def clarLoop (env : Env) (cb : Nat → Option String → String) :
    Nat → Nat → Query → Trace → StepResult × Trace
  | _, 0, q, tr =>
    (.ok { q with status := .ERROR, error_message := some maxAttemptsMessage }, tr)
  | i, fuel + 1, q, tr =>
    let tr := { tr with callbackEvents := tr.callbackEvents ++ [(q.clarifying_question, q.status)] }
    let answer := cb i q.clarifying_question
    let q := { q with user_clarification := some answer, status := .CLARIFICATION_RECEIVED }
    match validateStep env i q tr with
    | (.error e, tr) => (.error e, tr)
    | (.ok q, tr) =>
      if pyTruthy q.clarification_is_valid then
        match reformulateStep env q tr with
        | (.error e, tr) => (.error e, tr)
        | (.ok q, tr) => (.ok { q with status := .COMPLETED }, tr)
      else
        let q :=
          if 0 < fuel then
            { q with clarifying_question :=
                       some (rewriteQuestion q.clarifying_question
                               q.clarification_validation_feedback),
                     status := .AWAITING_CLARIFICATION }
          else q
        clarLoop env cb (i + 1) fuel q tr

/-- The try-block of AmbiguityPipeline.process_query: detect; short-circuit
to COMPLETED when not ambiguous; classify; generate the question; stop in
AWAITING_CLARIFICATION when no callback is given; otherwise run the
clarification loop. -/
def processBody (maxAttempts : Int) (env : Env)
    (cb : Option (Nat → Option String → String)) (q : Query) (tr : Trace) :
    StepResult × Trace :=
  match detectStep env q tr with
  | (.error e, tr) => (.error e, tr)
  | (.ok q, tr) =>
    if !(pyTruthy q.is_ambiguous) then
      (.ok { q with status := .COMPLETED }, tr)
    else
      match classifyStep env q tr with
      | (.error e, tr) => (.error e, tr)
      | (.ok q, tr) =>
        match generateStep env q tr with
        | (.error e, tr) => (.error e, tr)
        | (.ok q, tr) =>
          match cb with
          | none => (.ok { q with status := .AWAITING_CLARIFICATION }, tr)
          | some cb => clarLoop env cb 0 maxAttempts.toNat q tr

/-- AmbiguityPipeline.process_query: build the fresh record, run the
try-block, and on an exception set ERROR with the exception message and
return the record anyway (the except-clause at lines 130-134). -/
def processQuery (maxAttempts : Int) (env : Env)
    (cb : Option (Nat → Option String → String))
    (query_text created : String) : Query × Trace :=
  let q0 : Query := { original_query := query_text, created_at := created }
  match processBody maxAttempts env cb q0 {} with
  | (.ok q, tr) => (q, tr)
  | (.error (m, q), tr) => ({ q with status := .ERROR, error_message := some m }, tr)

/-- A Query record together with the `confirmed_query` attribute. The Python
dataclass declares no such field; the confirmation flow attaches it
dynamically (`q.confirmed_query = ...` in the pipeline test double,
src/tests/test_api_mock.py, read back by `process_confirmation` in
src/clari_gen/api/main.py), and spec section 3 lists it as a record field.
An absent attribute is `none`. -/
structure QueryC extends Query where
  confirmed_query : Option String := none
  deriving DecidableEq, Repr

/-- Query.get_final_output applied to a record carrying a confirmed_query
attribute: the method body reads only is_ambiguous, reformulated_query and
original_query, so the attribute is ignored. -/
def QueryC.get_final_output (q : QueryC) : String :=
  q.toQuery.get_final_output

/-- The final-output rule as worded by spec section 3, stated on the spec
record (for comparison with the code): original_query when is_ambiguous is
false or unset; otherwise confirmed_query, falling back to
reformulated_query, falling back to original_query when both are absent. -/
def specFinalOutput (q : QueryC) : String :=
  match q.is_ambiguous with
  | none => q.original_query
  | some false => q.original_query
  | some true =>
    match q.confirmed_query with
    | some c => c
    | none =>
      match q.reformulated_query with
      | some r => r
      | none => q.original_query

/-- Modelled from the spec: the confirmation step
(`resume_with_confirmation` / `confirm_reformulation`). It is invoked by
`process_confirmation` in src/clari_gen/api/main.py and mocked in
src/tests/test_api_mock.py, but no implementation exists in the package.
Spec section 4.2: if accepted, `confirmed_query := reformulated_query`; if
not accepted with an alternative supplied, `confirmed_query := alternative`;
if not accepted with no alternative, the operation fails with
MissingAlternative; always COMPLETED on success. Spec section 7: every such
failure surfaces as `status = ERROR` with a human-readable error_message and
is never thrown past the state machine boundary. -/
def confirm_reformulation (q : QueryC) (accepted : Bool)
    (alternative : Option String) : QueryC :=
  if accepted then
    { q with confirmed_query := q.reformulated_query, status := .COMPLETED }
  else
    match alternative with
    | some alt => { q with confirmed_query := some alt, status := .COMPLETED }
    | none =>
      { q with status := .ERROR,
               error_message :=
                 some "MissingAlternative: confirmation rejected but no alternative query was supplied" }

/-- The pipeline reaches the clarification phase: detection reports
ambiguous, classification succeeds end to end, and question generation
succeeds. -/
def ReachesLoop (env : Env) : Prop :=
  env.detect = .ok true ∧
  (∃ ts rs, env.classifyRaw = .ok (ts, rs) ∧ classifyAccepts ts = true) ∧
  (∃ gq, env.generate = .ok gq)

/-- A Capability Port call raises an exception with message `m` during the
run of process_query with bound `maxAttempts`: the Detector call, or one of
the Resolver calls (classification, question generation, the validation call
of some attempt that is actually reached, or the reformulation call after a
valid answer). -/
def PortRaises (env : Env) (maxAttempts : Int) (m : String) : Prop :=
  env.detect = .error m ∨
  (env.detect = .ok true ∧ env.classifyRaw = .error m) ∨
  (env.detect = .ok true ∧
    (∃ ts rs, env.classifyRaw = .ok (ts, rs) ∧ classifyAccepts ts = true) ∧
    env.generate = .error m) ∨
  (ReachesLoop env ∧
    ∃ k, k < maxAttempts.toNat ∧
      (∀ j, j < k → ∃ fb, env.validate j = .ok (false, fb)) ∧
      env.validate k = .error m) ∨
  (ReachesLoop env ∧
    ∃ k, k < maxAttempts.toNat ∧
      (∀ j, j < k → ∃ fb, env.validate j = .ok (false, fb)) ∧
      (∃ e, env.validate k = .ok (true, e)) ∧
      env.reformulate = .error m)

/-- A concrete callback used by witnesses. -/
def cbW : Nat → Option String → String := fun _ _ => "the 2022 World Cup"

/-- Witness environment: the Detector reports the query clear. -/
def envClear : Env :=
  { detect := .ok false
    classifyRaw := .error "unused"
    generate := .error "unused"
    validate := fun _ => .error "unused"
    reformulate := .error "unused" }

/-- Witness environment: ambiguous query whose every clarification answer is
judged invalid. -/
def envInvalid : Env :=
  { detect := .ok true
    classifyRaw := .ok (["LEXICAL"], "the term has several meanings")
    generate := .ok "Which meaning do you intend?"
    validate := fun _ => .ok (false, "too vague")
    reformulate := .ok "reformulated query" }

/-- Witness environment: the Detector call raises. -/
def envBoom : Env :=
  { detect := .error "connection refused"
    classifyRaw := .error "unused"
    generate := .error "unused"
    validate := fun _ => .error "unused"
    reformulate := .error "unused" }

/-- Counterexample environment: classification returns NONE together with
another kind. -/
def envNoneCo : Env :=
  { detect := .ok true
    classifyRaw := .ok (["NONE", "LEXICAL"], "mixed result")
    generate := .ok "Which meaning do you intend?"
    validate := fun _ => .ok (true, "fine")
    reformulate := .ok "reformulated query" }

/-- Failing-input environment: classification returns the enum member WHO. -/
def envWho : Env :=
  { detect := .ok true
    classifyRaw := .ok (["WHO"], "missing personal context")
    generate := .ok "Who do you mean?"
    validate := fun _ => .ok (true, "fine")
    reformulate := .ok "reformulated query" }

/-- Failing-input environment: classification returns REFERENCE, which the
parse whitelist accepts but the enum lacks. -/
def envReference : Env :=
  { detect := .ok true
    classifyRaw := .ok (["REFERENCE"], "unresolved reference")
    generate := .ok "What does it refer to?"
    validate := fun _ => .ok (true, "fine")
    reformulate := .ok "reformulated query" }

/-- ofValue inverts value on every status. -/
lemma QueryStatus.ofValue_value (s : QueryStatus) : QueryStatus.ofValue s.value = some s := by
  cases s <;> rfl

/-- When classification accepts the kinds, the whitelist scan finds no
offender. -/
lemma find_none_of_accepts (ts : List String) (h : classifyAccepts ts = true) :
    ts.find? (fun t => !valid_types.contains t) = none := by
  rw [List.find?_eq_none]
  intro x hx
  have hx2 := List.all_eq_true.mp h x hx
  simp only [Bool.and_eq_true] at hx2
  simpa using hx2.1

/-- When every kind is an enum member, the member-lookup comprehension
succeeds. -/
lemma lookupAmbiguityTypes_ok (ts : List String)
    (h : ∀ t ∈ ts, (AmbiguityType.ofName t).isSome = true) :
    ∃ l, lookupAmbiguityTypes ts = .ok l := by
  induction ts with
  | nil => exact ⟨[], rfl⟩
  | cons t rest ih =>
    obtain ⟨a, ha⟩ := Option.isSome_iff_exists.mp (h t (List.mem_cons_self t rest))
    obtain ⟨l, hl⟩ := ih (fun x hx => h x (List.mem_cons_of_mem _ hx))
    exact ⟨a :: l, by simp [lookupAmbiguityTypes, ha, hl]⟩

/-- classifyStep on a response whose kinds all pass the whitelist and the
enum lookup. -/
lemma classifyStep_ok (env : Env) (q : Query) (tr : Trace) (ts : List String)
    (rs : String) (hc : env.classifyRaw = .ok (ts, rs))
    (ha : classifyAccepts ts = true) :
    classifyStep env q tr =
      (.ok { q with ambiguity_types := ts, ambiguity_reasoning := some rs },
        { tr with largeModelCalls := tr.largeModelCalls + 1 }) := by
  obtain ⟨l, hl⟩ := lookupAmbiguityTypes_ok ts (fun t htm => by
    have hx2 := List.all_eq_true.mp ha t htm
    simp only [Bool.and_eq_true] at hx2
    exact hx2.2)
  simp only [classifyStep, hc, parse_response, find_none_of_accepts ts ha, hl]

/-- The record state after an iteration that judged the answer invalid:
answer recorded, marked invalid; when attempts remain the question is
rewritten with the feedback and the record moves back to
AWAITING_CLARIFICATION, otherwise it stays in CLARIFICATION_INVALID. -/
def invalidNextQuery (cb : Nat → Option String → String) (i fuel : Nat)
    (q : Query) (fb : String) : Query :=
  if 0 < fuel then
    { q with user_clarification := some (cb i q.clarifying_question),
             clarification_is_valid := some false,
             clarification_validation_feedback := some fb,
             clarifying_question :=
               some (rewriteQuestion q.clarifying_question (some fb)),
             status := .AWAITING_CLARIFICATION }
  else
    { q with user_clarification := some (cb i q.clarifying_question),
             clarification_is_valid := some false,
             clarification_validation_feedback := some fb,
             status := .CLARIFICATION_INVALID }

/-- The trace after one loop iteration that reached the validation call:
one callback event recorded and one validation (large-model) call made. -/
def stepTrace (q : Query) (tr : Trace) : Trace :=
  { tr with callbackEvents := tr.callbackEvents ++ [(q.clarifying_question, q.status)],
            largeModelCalls := tr.largeModelCalls + 1,
            validateCalls := tr.validateCalls + 1 }

/-- One iteration of the clarification loop on an invalid answer: the
callback is invoked, the answer recorded and judged invalid, the question is
rewritten with the feedback when attempts remain, and the loop continues
with the next attempt index. -/
lemma clarLoop_step_invalid (env : Env) (cb : Nat → Option String → String)
    (i fuel : Nat) (q : Query) (tr : Trace) (fb : String)
    (hv : env.validate i = .ok (false, fb)) :
    clarLoop env cb i (fuel + 1) q tr =
      clarLoop env cb (i + 1) fuel (invalidNextQuery cb i fuel q fb) (stepTrace q tr) := by
  simp only [invalidNextQuery, stepTrace]
  rcases Nat.eq_zero_or_pos fuel with hf | hf
  · subst hf
    simp [clarLoop, validateStep, hv, pyTruthy]
  · simp [clarLoop, validateStep, hv, pyTruthy, hf]

/-- One iteration of the clarification loop when the validation call raises:
the exception escapes the loop with the record as it was at the call. -/
lemma clarLoop_step_validate_error (env : Env) (cb : Nat → Option String → String)
    (i fuel : Nat) (q : Query) (tr : Trace) (m : String)
    (hv : env.validate i = .error m) :
    clarLoop env cb i (fuel + 1) q tr =
      (.error (m, { q with user_clarification := some (cb i q.clarifying_question),
                           status := .VALIDATING_CLARIFICATION }),
        { tr with callbackEvents :=
                    tr.callbackEvents ++ [(q.clarifying_question, q.status)],
                  largeModelCalls := tr.largeModelCalls + 1,
                  validateCalls := tr.validateCalls + 1 }) := by
  simp [clarLoop, validateStep, hv]

/-- One iteration of the clarification loop on a valid answer with a
successful reformulation: the run completes. -/
lemma clarLoop_step_valid_ok (env : Env) (cb : Nat → Option String → String)
    (i fuel : Nat) (q : Query) (tr : Trace) (e s : String)
    (hv : env.validate i = .ok (true, e)) (hr : env.reformulate = .ok s) :
    clarLoop env cb i (fuel + 1) q tr =
      (.ok { q with user_clarification := some (cb i q.clarifying_question),
                    clarification_is_valid := some true,
                    clarification_validation_feedback := some e,
                    reformulated_query := some s,
                    status := .COMPLETED },
        { tr with callbackEvents :=
                    tr.callbackEvents ++ [(q.clarifying_question, q.status)],
                  largeModelCalls := tr.largeModelCalls + 1 + 1,
                  validateCalls := tr.validateCalls + 1 }) := by
  simp [clarLoop, validateStep, hv, pyTruthy, reformulateStep, hr]

/-- One iteration of the clarification loop on a valid answer whose
reformulation call raises. -/
lemma clarLoop_step_valid_reform_error (env : Env) (cb : Nat → Option String → String)
    (i fuel : Nat) (q : Query) (tr : Trace) (e m : String)
    (hv : env.validate i = .ok (true, e)) (hr : env.reformulate = .error m) :
    clarLoop env cb i (fuel + 1) q tr =
      (.error (m, { q with user_clarification := some (cb i q.clarifying_question),
                           clarification_is_valid := some true,
                           clarification_validation_feedback := some e,
                           status := .REFORMULATING }),
        { tr with callbackEvents :=
                    tr.callbackEvents ++ [(q.clarifying_question, q.status)],
                  largeModelCalls := tr.largeModelCalls + 1 + 1,
                  validateCalls := tr.validateCalls + 1 }) := by
  simp [clarLoop, validateStep, hv, pyTruthy, reformulateStep, hr]

/-- When every answer submitted during the remaining attempts is judged
invalid, the loop ends in ERROR with the exhaustion message after exactly
one validation call and one callback invocation per remaining attempt. -/
lemma clarLoop_all_invalid (env : Env) (cb : Nat → Option String → String) :
    ∀ (fuel i : Nat) (q : Query) (tr : Trace),
      (∀ j, j < fuel → ∃ fb, env.validate (i + j) = .ok (false, fb)) →
      ∃ q' tr',
        clarLoop env cb i fuel q tr = (.ok q', tr') ∧
        q'.status = .ERROR ∧ q'.error_message = some maxAttemptsMessage ∧
        tr'.validateCalls = tr.validateCalls + fuel ∧
        tr'.callbackEvents.length = tr.callbackEvents.length + fuel := by
  intro fuel
  induction fuel with
  | zero =>
    intro i q tr _
    exact ⟨_, tr, rfl, rfl, rfl, rfl, rfl⟩
  | succ fuel ih =>
    intro i q tr h
    obtain ⟨fb, hv⟩ := h 0 (Nat.succ_pos _)
    rw [Nat.add_zero] at hv
    rw [clarLoop_step_invalid env cb i fuel q tr fb hv]
    have h' : ∀ j, j < fuel → ∃ fb, env.validate (i + 1 + j) = .ok (false, fb) := by
      intro j hj
      obtain ⟨fb', hv'⟩ := h (j + 1) (Nat.succ_lt_succ hj)
      exact ⟨fb', by rwa [show i + (j + 1) = i + 1 + j by omega] at hv'⟩
    obtain ⟨q', tr', heq, hs, hm, hvc, hev⟩ :=
      ih (i + 1) (invalidNextQuery cb i fuel q fb) (stepTrace q tr) h'
    have hvc' : tr'.validateCalls = tr.validateCalls + 1 + fuel := by
      simpa [stepTrace] using hvc
    have hev' : tr'.callbackEvents.length = tr.callbackEvents.length + 1 + fuel := by
      simpa [stepTrace] using hev
    exact ⟨q', tr', heq, hs, hm, by omega, by omega⟩

/-- Skipping `k` attempts whose answers are all judged invalid: the loop
from attempt `i` equals the loop from attempt `i + k` at some intermediate
record and trace. -/
lemma clarLoop_shift (env : Env) (cb : Nat → Option String → String) :
    ∀ (k fuel i : Nat) (q : Query) (tr : Trace), k ≤ fuel →
      (∀ j, j < k → ∃ fb, env.validate (i + j) = .ok (false, fb)) →
      ∃ q' tr', clarLoop env cb i fuel q tr = clarLoop env cb (i + k) (fuel - k) q' tr' := by
  intro k
  induction k with
  | zero =>
    intro fuel i q tr _ _
    exact ⟨q, tr, by simp⟩
  | succ k ih =>
    intro fuel i q tr hk h
    obtain ⟨fuel', rfl⟩ : ∃ fuel', fuel = fuel' + 1 := ⟨fuel - 1, by omega⟩
    obtain ⟨fb, hv⟩ := h 0 (Nat.succ_pos _)
    rw [Nat.add_zero] at hv
    rw [clarLoop_step_invalid env cb i fuel' q tr fb hv]
    have h' : ∀ j, j < k → ∃ fb, env.validate (i + 1 + j) = .ok (false, fb) := by
      intro j hj
      obtain ⟨fb', hv'⟩ := h (j + 1) (Nat.succ_lt_succ hj)
      exact ⟨fb', by rwa [show i + (j + 1) = i + 1 + j by omega] at hv'⟩
    obtain ⟨q', tr', heq⟩ :=
      ih fuel' (i + 1) (invalidNextQuery cb i fuel' q fb) (stepTrace q tr) (by omega) h'
    refine ⟨q', tr', ?_⟩
    rw [heq, show i + 1 + k = i + (k + 1) from by omega,
        show fuel' - k = fuel' + 1 - (k + 1) from by omega]

/-- The loop only ever appends to the list of callback events. -/
lemma clarLoop_events_mono (env : Env) (cb : Nat → Option String → String) :
    ∀ (fuel i : Nat) (q : Query) (tr : Trace),
      ∃ l, ((clarLoop env cb i fuel q tr).2).callbackEvents = tr.callbackEvents ++ l := by
  intro fuel
  induction fuel with
  | zero =>
    intro i q tr
    exact ⟨[], by simp [clarLoop]⟩
  | succ fuel ih =>
    intro i q tr
    rcases hv : env.validate i with m | ⟨b, e⟩
    · exact ⟨[(q.clarifying_question, q.status)],
        by rw [clarLoop_step_validate_error env cb i fuel q tr m hv]⟩
    · cases b with
      | false =>
        rw [clarLoop_step_invalid env cb i fuel q tr e hv]
        obtain ⟨l, hl⟩ := ih (i + 1) (invalidNextQuery cb i fuel q e) (stepTrace q tr)
        exact ⟨(q.clarifying_question, q.status) :: l, by
          rw [hl]; simp [stepTrace]⟩
      | true =>
        rcases hr : env.reformulate with m | s
        · exact ⟨[(q.clarifying_question, q.status)],
            by rw [clarLoop_step_valid_reform_error env cb i fuel q tr e m hv hr]⟩
        · exact ⟨[(q.clarifying_question, q.status)],
            by rw [clarLoop_step_valid_ok env cb i fuel q tr e s hv hr]⟩

/-- detectStep when the Detector reports ambiguous. -/
lemma detectStep_true (env : Env) (q : Query) (tr : Trace)
    (hd : env.detect = .ok true) :
    detectStep env q tr =
      (.ok { q with is_ambiguous := some true, status := .AMBIGUOUS },
        { tr with smallModelCalls := tr.smallModelCalls + 1 }) := by
  simp [detectStep, hd]

/-- generateStep when the generation call succeeds. -/
lemma generateStep_ok (env : Env) (q : Query) (tr : Trace) (gq : String)
    (hg : env.generate = .ok gq) :
    generateStep env q tr =
      (.ok { q with clarifying_question := some gq },
        { tr with largeModelCalls := tr.largeModelCalls + 1 }) := by
  simp [generateStep, hg]

/-- The record state on entry to the clarification loop. -/
def loopEntryQuery (q : Query) (ts : List String) (rs gq : String) : Query :=
  { q with status := .AMBIGUOUS, is_ambiguous := some true,
           ambiguity_types := ts, ambiguity_reasoning := some rs,
           clarifying_question := some gq }

/-- The trace on entry to the clarification loop: one Detector call and two
Resolver calls (classification and question generation). -/
def loopEntryTrace (tr : Trace) : Trace :=
  { tr with smallModelCalls := tr.smallModelCalls + 1,
            largeModelCalls := tr.largeModelCalls + 1 + 1 }

/-- When detection reports ambiguous and classification and question
generation succeed, the try-block with a callback runs the clarification
loop from attempt 0 with the full attempt budget. -/
lemma processBody_reaches (maxAttempts : Int) (env : Env)
    (cb : Nat → Option String → String) (q : Query) (tr : Trace)
    (ts : List String) (rs gq : String)
    (hd : env.detect = .ok true) (hc : env.classifyRaw = .ok (ts, rs))
    (ha : classifyAccepts ts = true) (hg : env.generate = .ok gq) :
    processBody maxAttempts env (some cb) q tr =
      clarLoop env cb 0 maxAttempts.toNat
        (loopEntryQuery q ts rs gq) (loopEntryTrace tr) := by
  have h1 := detectStep_true env q tr hd
  have h2 := classifyStep_ok env
    { q with is_ambiguous := some true, status := .AMBIGUOUS }
    { tr with smallModelCalls := tr.smallModelCalls + 1 } ts rs hc ha
  have h3 := generateStep_ok env
    { q with is_ambiguous := some true, status := .AMBIGUOUS,
             ambiguity_types := ts, ambiguity_reasoning := some rs }
    { tr with smallModelCalls := tr.smallModelCalls + 1,
              largeModelCalls := tr.largeModelCalls + 1 } gq hg
  simp [processBody, h1, h2, h3, pyTruthy, loopEntryQuery, loopEntryTrace]

/-- detectStep when the Detector reports the query clear. -/
lemma detectStep_false (env : Env) (q : Query) (tr : Trace)
    (hd : env.detect = .ok false) :
    detectStep env q tr =
      (.ok { q with is_ambiguous := some false, status := .NOT_AMBIGUOUS },
        { tr with smallModelCalls := tr.smallModelCalls + 1 }) := by
  simp [detectStep, hd]

/-- C1: for every query for which the Detector reports is_ambiguous=false,
process_query never invokes the Resolver (large model), the returned record
has status COMPLETED, and get_final_output equals the original query. -/
theorem c1_clear_query_short_circuit (maxAttempts : Int) (env : Env)
    (cb : Option (Nat → Option String → String)) (txt created : String)
    (hd : env.detect = .ok false) :
    (processQuery maxAttempts env cb txt created).2.largeModelCalls = 0 ∧
    (processQuery maxAttempts env cb txt created).1.status = .COMPLETED ∧
    (processQuery maxAttempts env cb txt created).1.get_final_output = txt ∧
    (processQuery maxAttempts env cb txt created).1.original_query = txt := by
  have hds := fun q tr => detectStep_false env q tr hd
  simp [processQuery, processBody, hds, pyTruthy, Query.get_final_output, pyOrStr]

/-- C1 witness: the short circuit at a concrete clear query. -/
theorem c1_witness :
    (processQuery 3 envClear none "What is 2 + 2?" "t").2.largeModelCalls = 0 ∧
    (processQuery 3 envClear none "What is 2 + 2?" "t").1.status = .COMPLETED ∧
    (processQuery 3 envClear none "What is 2 + 2?" "t").1.get_final_output = "What is 2 + 2?" ∧
    (processQuery 3 envClear none "What is 2 + 2?" "t").1.original_query = "What is 2 + 2?" :=
  c1_clear_query_short_circuit 3 envClear none "What is 2 + 2?" "t" rfl

/-- C3 counterexample: get_final_output never consults confirmed_query — on
a record with is_ambiguous true, confirmed_query "A" and reformulated_query
"B" the code returns "B" while the claimed rule returns "A"; moreover with
reformulated_query equal to the empty string the code falls back to
original_query even though reformulated_query is present. -/
theorem c3_counterexample :
    ¬(QueryC.get_final_output
        { original_query := "q0", status := .COMPLETED, is_ambiguous := some true,
          created_at := "t", reformulated_query := some "B", confirmed_query := some "A" } =
      specFinalOutput
        { original_query := "q0", status := .COMPLETED, is_ambiguous := some true,
          created_at := "t", reformulated_query := some "B", confirmed_query := some "A" }) ∧
    QueryC.get_final_output
        { original_query := "q0", status := .COMPLETED, is_ambiguous := some true,
          created_at := "t", reformulated_query := some "B", confirmed_query := some "A" } = "B" ∧
    specFinalOutput
        { original_query := "q0", status := .COMPLETED, is_ambiguous := some true,
          created_at := "t", reformulated_query := some "B", confirmed_query := some "A" } = "A" ∧
    Query.get_final_output
        { original_query := "q0", is_ambiguous := some true,
          created_at := "t", reformulated_query := some "" } = "q0" := by
  exact ⟨by decide, rfl, rfl, rfl⟩

/-- C3 (amended): the derived final output is original_query when
is_ambiguous is false or unset; otherwise it is reformulated_query, falling
back to original_query when reformulated_query is absent or empty;
confirmed_query is never consulted. -/
theorem c3_final_output (q : Query) :
    ((q.is_ambiguous = none ∨ q.is_ambiguous = some false) →
      q.get_final_output = q.original_query) ∧
    (q.is_ambiguous = some true →
      (∀ s, q.reformulated_query = some s → s ≠ "" → q.get_final_output = s) ∧
      ((q.reformulated_query = none ∨ q.reformulated_query = some "") →
        q.get_final_output = q.original_query)) ∧
    (∀ c : Option String,
      QueryC.get_final_output { q with confirmed_query := c } = q.get_final_output) := by
  refine ⟨?_, ?_, ?_⟩
  · rintro (h | h) <;> simp [Query.get_final_output, h, pyTruthy]
  · intro h
    refine ⟨?_, ?_⟩
    · intro s hs hne
      simp [Query.get_final_output, h, pyTruthy, pyOrStr, hs, hne]
    · rintro (hr | hr) <;> simp [Query.get_final_output, h, pyTruthy, pyOrStr, hr]
  · intro c
    rfl

/-- C3 witness: the amended rule at a concrete ambiguous record. -/
theorem c3_witness :
    Query.get_final_output
      { original_query := "q0", is_ambiguous := some true,
        created_at := "t", reformulated_query := some "B" } = "B" :=
  ((c3_final_output
      { original_query := "q0", is_ambiguous := some true,
        created_at := "t", reformulated_query := some "B" }).2.1 rfl).1
    "B" rfl (by decide)

/-- C5: the code contradicts the taxonomy closure — WHO is an AmbiguityType
member yet parse_response rejects it, while REFERENCE is outside the enum
yet passes the parse whitelist (the pipeline then dies on the enum lookup
rather than a parse-level schema error); either way the record ends in ERROR
and never reaches AWAITING_CLARIFICATION. -/
theorem c5_taxonomy_mismatch :
    "WHO" ∈ ambiguityTypeNames ∧ (AmbiguityType.ofName "WHO").isSome = true ∧
    parse_response ["WHO"] "missing personal context" =
      .error "Could not parse structured response: Invalid ambiguity type: WHO" ∧
    "REFERENCE" ∉ ambiguityTypeNames ∧ AmbiguityType.ofName "REFERENCE" = none ∧
    "REFERENCE" ∈ valid_types ∧
    parse_response ["REFERENCE"] "unresolved reference" =
      .ok (["REFERENCE"], "unresolved reference") ∧
    (processQuery 3 envWho none "q" "t").1.status = .ERROR ∧
    (processQuery 3 envWho none "q" "t").1.status ≠ .AWAITING_CLARIFICATION ∧
    (processQuery 3 envWho none "q" "t").1.error_message =
      some "Could not parse structured response: Invalid ambiguity type: WHO" ∧
    (processQuery 3 envReference none "q" "t").1.status = .ERROR := by
  exact ⟨by decide, rfl, rfl, by decide, rfl, by decide, rfl, rfl, by decide, rfl, rfl⟩

/-- C6 counterexample: a classification response listing NONE together with
LEXICAL is accepted by parse_response unchanged and the record proceeds to
AWAITING_CLARIFICATION with both kinds stored — no SchemaViolation is
raised. -/
theorem c6_none_cooccurrence_counterexample :
    parse_response ["NONE", "LEXICAL"] "mixed result" =
      .ok (["NONE", "LEXICAL"], "mixed result") ∧
    (processQuery 3 envNoneCo none "q" "t").1.status = .AWAITING_CLARIFICATION ∧
    (processQuery 3 envNoneCo none "q" "t").1.ambiguity_types = ["NONE", "LEXICAL"] := by
  exact ⟨rfl, rfl, rfl⟩

/-- C6 (amended): the core applies no NONE co-occurrence check — any
response whose kinds all pass the whitelist is accepted exactly as sent,
even when NONE co-occurs with other kinds; NONE is not stripped. -/
theorem c6_none_accepted_unchanged (ts : List String) (rs : String)
    (hmem : "NONE" ∈ ts)
    (hall : ts.all (fun t => valid_types.contains t) = true) :
    parse_response ts rs = .ok (ts, rs) := by
  have hfind : ts.find? (fun t => !valid_types.contains t) = none := by
    rw [List.find?_eq_none]
    intro x hx
    have := List.all_eq_true.mp hall x hx
    simpa using this
  unfold parse_response
  rw [hfind]

/-- C6 witness: the amended statement at a concrete NONE co-occurrence. -/
theorem c6_witness :
    parse_response ["NONE", "SEMANTIC"] "r" = .ok (["NONE", "SEMANTIC"], "r") :=
  c6_none_accepted_unchanged ["NONE", "SEMANTIC"] "r" (by decide) (by decide)

/-- C7: the confirmation step rejected with no alternative always fails
with MissingAlternative (surfaced as ERROR on the record, per the error
design) and never yields COMPLETED; accepted sets confirmed_query to
reformulated_query, and rejected with an alternative sets confirmed_query
to the alternative, both completing. -/
theorem c7_confirmation_contract (q : QueryC) (alt : Option String) (a : String) :
    ((confirm_reformulation q false none).status = .ERROR ∧
     (confirm_reformulation q false none).status ≠ .COMPLETED ∧
     (confirm_reformulation q false none).error_message =
       some "MissingAlternative: confirmation rejected but no alternative query was supplied") ∧
    ((confirm_reformulation q true alt).confirmed_query = q.reformulated_query ∧
     (confirm_reformulation q true alt).status = .COMPLETED) ∧
    ((confirm_reformulation q false (some a)).confirmed_query = some a ∧
     (confirm_reformulation q false (some a)).status = .COMPLETED) := by
  refine ⟨⟨rfl, ?_, rfl⟩, ⟨rfl, rfl⟩, ⟨rfl, rfl⟩⟩
  intro hcontr
  simp [confirm_reformulation] at hcontr

/-- C9: serializing a record to the flat mapping and deserializing it back
yields the identical record, and a second round trip changes nothing. -/
theorem c9_serialization_round_trip (q : Query) :
    Query.from_dict (Query.to_dict q) = some q ∧
    (Query.from_dict (Query.to_dict q)).map Query.to_dict = some (Query.to_dict q) := by
  have h : Query.from_dict (Query.to_dict q) = some q := by
    simp [Query.to_dict, Query.from_dict, QueryStatus.ofValue_value]
  exact ⟨h, by rw [h]; rfl⟩

/-- C2: with max_clarification_attempts = N at least 1, when validation
reports invalid for all N submitted answers the run ends in ERROR with the
exhaustion message after exactly N validation calls (one per submitted
answer, as the callback-event count shows) and never accepts the invalid
clarification. -/
theorem c2_retry_bound (N : Nat) (env : Env) (cb : Nat → Option String → String)
    (txt created : String) (ts : List String) (rs gq : String)
    (hN : 1 ≤ N)
    (hd : env.detect = .ok true) (hc : env.classifyRaw = .ok (ts, rs))
    (ha : classifyAccepts ts = true) (hg : env.generate = .ok gq)
    (hv : ∀ j, j < N → ∃ fb, env.validate j = .ok (false, fb)) :
    (processQuery (N : Int) env (some cb) txt created).1.status = .ERROR ∧
    (processQuery (N : Int) env (some cb) txt created).1.status ≠ .COMPLETED ∧
    (processQuery (N : Int) env (some cb) txt created).1.error_message =
      some maxAttemptsMessage ∧
    (processQuery (N : Int) env (some cb) txt created).2.validateCalls = N ∧
    (processQuery (N : Int) env (some cb) txt created).2.callbackEvents.length = N := by
  have hglue := processBody_reaches (N : Int) env cb
    { original_query := txt, created_at := created } {} ts rs gq hd hc ha hg
  have htn : ((N : Int)).toNat = N := rfl
  obtain ⟨q', tr', heq, hs, hm, hvc, hev⟩ :=
    clarLoop_all_invalid env cb N 0
      (loopEntryQuery { original_query := txt, created_at := created } ts rs gq)
      (loopEntryTrace {})
      (by intro j hj; simpa using hv j hj)
  have hfinal : processQuery (N : Int) env (some cb) txt created = (q', tr') := by
    simp only [processQuery, hglue, htn, heq]
  rw [hfinal]
  have hvc2 : tr'.validateCalls = N := by simpa [loopEntryTrace] using hvc
  have hev2 : tr'.callbackEvents.length = N := by simpa [loopEntryTrace] using hev
  exact ⟨hs, by rw [hs]; decide, hm, hvc2, hev2⟩

/-- C2 witness: two all-invalid attempts with bound 2. -/
theorem c2_witness :
    (processQuery ((2 : Nat) : Int) envInvalid (some cbW) "q" "t").1.status = .ERROR ∧
    (processQuery ((2 : Nat) : Int) envInvalid (some cbW) "q" "t").1.status ≠ .COMPLETED ∧
    (processQuery ((2 : Nat) : Int) envInvalid (some cbW) "q" "t").1.error_message =
      some maxAttemptsMessage ∧
    (processQuery ((2 : Nat) : Int) envInvalid (some cbW) "q" "t").2.validateCalls = 2 ∧
    (processQuery ((2 : Nat) : Int) envInvalid (some cbW) "q" "t").2.callbackEvents.length = 2 :=
  c2_retry_bound 2 envInvalid cbW "q" "t" ["LEXICAL"] "the term has several meanings"
    "Which meaning do you intend?" (by decide) rfl rfl rfl rfl
    (fun j hj => ⟨"too vague", rfl⟩)

/-- C10: with a non-positive attempt bound and an ambiguous query, the loop
body never executes — no callback invocation and no validation call — and
the record ends in ERROR with the exhaustion message. -/
theorem c10_nonpositive_bound_skips_loop (maxAttempts : Int) (env : Env)
    (cb : Nat → Option String → String) (txt created : String)
    (ts : List String) (rs gq : String)
    (hmax : maxAttempts ≤ 0)
    (hd : env.detect = .ok true) (hc : env.classifyRaw = .ok (ts, rs))
    (ha : classifyAccepts ts = true) (hg : env.generate = .ok gq) :
    (processQuery maxAttempts env (some cb) txt created).1.status = .ERROR ∧
    (processQuery maxAttempts env (some cb) txt created).1.error_message =
      some maxAttemptsMessage ∧
    (processQuery maxAttempts env (some cb) txt created).2.callbackEvents = [] ∧
    (processQuery maxAttempts env (some cb) txt created).2.validateCalls = 0 := by
  have hglue := processBody_reaches maxAttempts env cb
    { original_query := txt, created_at := created } {} ts rs gq hd hc ha hg
  have ht : maxAttempts.toNat = 0 := by omega
  simp only [processQuery, hglue, ht, clarLoop]
  refine ⟨?_, ?_, ?_, ?_⟩ <;> trivial

/-- C10 witness: bound 0 with an ambiguous query and a callback. -/
theorem c10_witness :
    (processQuery 0 envInvalid (some cbW) "q" "t").1.status = .ERROR ∧
    (processQuery 0 envInvalid (some cbW) "q" "t").1.error_message =
      some maxAttemptsMessage ∧
    (processQuery 0 envInvalid (some cbW) "q" "t").2.callbackEvents = [] ∧
    (processQuery 0 envInvalid (some cbW) "q" "t").2.validateCalls = 0 :=
  c10_nonpositive_bound_skips_loop 0 envInvalid cbW "q" "t" ["LEXICAL"]
    "the term has several meanings" "Which meaning do you intend?"
    (by decide) rfl rfl rfl rfl

/-- C4: every exception raised by a Capability Port call during any
operation of process_query surfaces on the returned record as status ERROR
with the exception message captured verbatim in error_message — the record
is returned, not the exception. -/
theorem c4_port_exception_surfaces (maxAttempts : Int) (env : Env)
    (cb : Nat → Option String → String) (txt created m : String)
    (h : PortRaises env maxAttempts m) :
    (processQuery maxAttempts env (some cb) txt created).1.status = .ERROR ∧
    (processQuery maxAttempts env (some cb) txt created).1.error_message = some m := by
  rcases h with hd | ⟨hd, hc⟩ | ⟨hd, ⟨ts, rs, hc, ha⟩, hg⟩ |
    ⟨⟨hd, ⟨ts, rs, hc, ha⟩, gq, hg⟩, k, hk, hpre, hval⟩ |
    ⟨⟨hd, ⟨ts, rs, hc, ha⟩, gq, hg⟩, k, hk, hpre, ⟨e, hval⟩, hre⟩
  · constructor <;> simp [processQuery, processBody, detectStep, hd]
  · have hds := fun q tr => detectStep_true env q tr hd
    constructor <;> simp [processQuery, processBody, hds, pyTruthy, classifyStep, hc]
  · have hds := fun q tr => detectStep_true env q tr hd
    have hcs := fun q tr => classifyStep_ok env q tr ts rs hc ha
    constructor <;>
      simp [processQuery, processBody, hds, hcs, pyTruthy, generateStep, hg]
  · have hglue := processBody_reaches maxAttempts env cb
      { original_query := txt, created_at := created } {} ts rs gq hd hc ha hg
    obtain ⟨q2, tr2, hshift⟩ := clarLoop_shift env cb k maxAttempts.toNat 0
      (loopEntryQuery { original_query := txt, created_at := created } ts rs gq)
      (loopEntryTrace {}) (Nat.le_of_lt hk)
      (by intro j hj; simpa using hpre j hj)
    obtain ⟨f, hf⟩ : ∃ f, maxAttempts.toNat - k = f + 1 :=
      ⟨maxAttempts.toNat - k - 1, by omega⟩
    rw [Nat.zero_add, hf, clarLoop_step_validate_error env cb k f q2 tr2 m hval]
      at hshift
    simp only [processQuery, hglue, hshift]
    constructor <;> trivial
  · have hglue := processBody_reaches maxAttempts env cb
      { original_query := txt, created_at := created } {} ts rs gq hd hc ha hg
    obtain ⟨q2, tr2, hshift⟩ := clarLoop_shift env cb k maxAttempts.toNat 0
      (loopEntryQuery { original_query := txt, created_at := created } ts rs gq)
      (loopEntryTrace {}) (Nat.le_of_lt hk)
      (by intro j hj; simpa using hpre j hj)
    obtain ⟨f, hf⟩ : ∃ f, maxAttempts.toNat - k = f + 1 :=
      ⟨maxAttempts.toNat - k - 1, by omega⟩
    rw [Nat.zero_add, hf, clarLoop_step_valid_reform_error env cb k f q2 tr2 e m hval hre]
      at hshift
    simp only [processQuery, hglue, hshift]
    constructor <;> trivial

/-- C4 witness: a Detector transport failure surfaces verbatim. -/
theorem c4_witness :
    (processQuery 3 envBoom (some cbW) "q" "t").1.status = .ERROR ∧
    (processQuery 3 envBoom (some cbW) "q" "t").1.error_message =
      some "connection refused" :=
  c4_port_exception_surfaces 3 envBoom cbW "q" "t" "connection refused" (Or.inl rfl)

/-- The first callback event of a loop run with at least one attempt left
records the current question and status. -/
lemma clarLoop_first_event (env : Env) (cb : Nat → Option String → String)
    (fuel i : Nat) (q : Query) (tr : Trace) :
    ∃ rest, ((clarLoop env cb i (fuel + 1) q tr).2).callbackEvents =
      tr.callbackEvents ++ (q.clarifying_question, q.status) :: rest := by
  rcases hv : env.validate i with m | ⟨b, e⟩
  · exact ⟨[], by rw [clarLoop_step_validate_error env cb i fuel q tr m hv]⟩
  · cases b with
    | false =>
      rw [clarLoop_step_invalid env cb i fuel q tr e hv]
      obtain ⟨l, hl⟩ := clarLoop_events_mono env cb fuel (i + 1)
        (invalidNextQuery cb i fuel q e) (stepTrace q tr)
      exact ⟨l, by rw [hl]; simp [stepTrace]⟩
    | true =>
      rcases hr : env.reformulate with m | s
      · exact ⟨[], by rw [clarLoop_step_valid_reform_error env cb i fuel q tr e m hv hr]⟩
      · exact ⟨[], by rw [clarLoop_step_valid_ok env cb i fuel q tr e s hv hr]⟩

/-- C8: whenever validation judges the answer of attempt i invalid and at
least one retry attempt remains, the next callback invocation receives the
question rewritten to exactly
question + two newlines + "(Your previous answer was unclear: " + feedback +
". Please try again.)", with the record back in AWAITING_CLARIFICATION at
the moment that next answer is requested. -/
theorem c8_invalid_feedback_rewrite (env : Env) (cb : Nat → Option String → String)
    (i fuel : Nat) (q : Query) (tr : Trace) (fb : String)
    (hv : env.validate i = .ok (false, fb)) :
    ∃ rest,
      ((clarLoop env cb i (fuel + 2) q tr).2).callbackEvents =
        tr.callbackEvents ++
          (q.clarifying_question, q.status) ::
          (some (pyFormatOpt q.clarifying_question ++
                  "\n\n(Your previous answer was unclear: " ++ fb ++ ". Please try again.)"),
            QueryStatus.AWAITING_CLARIFICATION) :: rest := by
  rw [show fuel + 2 = (fuel + 1) + 1 from rfl,
      clarLoop_step_invalid env cb i (fuel + 1) q tr fb hv]
  obtain ⟨rest, hrest⟩ := clarLoop_first_event env cb fuel (i + 1)
    (invalidNextQuery cb i (fuel + 1) q fb) (stepTrace q tr)
  refine ⟨rest, ?_⟩
  rw [hrest]
  simp [invalidNextQuery, stepTrace, rewriteQuestion, pyFormatOpt]

/-- C8 witness: the rewrite observed at a concrete run. -/
theorem c8_witness :
    ∃ rest,
      ((clarLoop envInvalid cbW 0 (1 + 2)
          { original_query := "q", created_at := "t", clarifying_question := some "Q0" }
          {}).2).callbackEvents =
        ({} : Trace).callbackEvents ++
          (some "Q0", QueryStatus.INITIAL) ::
          (some (pyFormatOpt (some "Q0") ++
                  "\n\n(Your previous answer was unclear: " ++ "too vague" ++ ". Please try again.)"),
            QueryStatus.AWAITING_CLARIFICATION) :: rest :=
  c8_invalid_feedback_rewrite envInvalid cbW 0 1
    { original_query := "q", created_at := "t", clarifying_question := some "Q0" } {}
    "too vague" rfl

/-- C7 witness: the confirmation contract at a concrete record. -/
theorem c7_witness :
    ((confirm_reformulation
        { original_query := "q", created_at := "t", reformulated_query := some "R" }
        false none).status = .ERROR ∧
     (confirm_reformulation
        { original_query := "q", created_at := "t", reformulated_query := some "R" }
        false none).status ≠ .COMPLETED ∧
     (confirm_reformulation
        { original_query := "q", created_at := "t", reformulated_query := some "R" }
        false none).error_message =
       some "MissingAlternative: confirmation rejected but no alternative query was supplied") ∧
    ((confirm_reformulation
        { original_query := "q", created_at := "t", reformulated_query := some "R" }
        true none).confirmed_query =
       ({ original_query := "q", created_at := "t", reformulated_query := some "R" } : QueryC).reformulated_query ∧
     (confirm_reformulation
        { original_query := "q", created_at := "t", reformulated_query := some "R" }
        true none).status = .COMPLETED) ∧
    ((confirm_reformulation
        { original_query := "q", created_at := "t", reformulated_query := some "R" }
        false (some "Alt")).confirmed_query = some "Alt" ∧
     (confirm_reformulation
        { original_query := "q", created_at := "t", reformulated_query := some "R" }
        false (some "Alt")).status = .COMPLETED) :=
  c7_confirmation_contract
    { original_query := "q", created_at := "t", reformulated_query := some "R" } none "Alt"

/-- C9 witness: the round trip at a concrete record. -/
theorem c9_witness :
    Query.from_dict (Query.to_dict { original_query := "q", created_at := "t" }) =
      some { original_query := "q", created_at := "t" } ∧
    (Query.from_dict (Query.to_dict { original_query := "q", created_at := "t" })).map
        Query.to_dict =
      some (Query.to_dict { original_query := "q", created_at := "t" }) :=
  c9_serialization_round_trip { original_query := "q", created_at := "t" }
